import Mathlib

/-!
Shallow embedding of `decountCondition.py`, a one-pass inventory/price
reconciliation script between a Shopify storefront and a POS system.

Modelling conventions:
* Decimal currency values exchanged as floats/strings in the source are
  modelled as exact rationals (`ℚ`), following the data model of the design
  (decimal values; §3, §9 of the spec).
* Python `float(...)` applied to a text field is modelled by an `Option ℚ`
  result: `none` means the conversion raised `ValueError`/`TypeError`.
* Python `int(x)` (truncation toward zero) is `pyInt`.
* Python `round(x, 2)` is modelled as round-half-to-even at two decimal
  places over exact rationals (`round2`).
* Fallible code paths (uncaught exceptions) are modelled with
  `Option`/`Except`; a `none`/`.error` value is an exception escaping the
  scope in question.
-/

/-- Models the ASCII plane of Python `char.isprintable()`: control
characters (U+0000–U+001F and U+007F) are not printable, the other ASCII
characters are.  The non-ASCII Unicode categories are outside the scope of
the claims considered here. -/
def pyIsPrintable (c : Char) : Bool :=
  decide (0x20 ≤ c.toNat) && decide (c.toNat ≤ 0x7E)

/-- `sanitize_sku` (source lines 19–23): removes non-printable characters
from a SKU string; a non-string input (modelled by `none`) yields `""`. -/
def sanitize_sku : Option String → String
  | none => ""
  | some s => ⟨s.data.filter pyIsPrintable⟩

/-- Python `int(...)` on a number: truncation toward zero (the floor for a
non-negative argument, the ceiling `-⌊-q⌋` for a negative one). -/
def pyInt (q : ℚ) : ℤ :=
  if 0 ≤ q then ⌊q⌋ else -⌊-q⌋

/-- `round_to_5_or_10` (source lines 26–47): truncate to whole pounds with
`int(price)`, return unchanged when the last digit is 0 or 5, otherwise
round up to the nearest 5 (remainder below 5) or the nearest 10. -/
def round_to_5_or_10 (price : ℚ) : ℤ :=
  let price_pounds := pyInt price
  let last_digit := price_pounds % 10
  if last_digit = 0 ∨ last_digit = 5 then price_pounds
  else
    let remainder := price_pounds % 10
    if remainder < 5 then price_pounds - remainder + 5
    else price_pounds - remainder + 10

/-- Round to the nearest integer, ties to even (Python's rounding mode). -/
def roundHalfEven (q : ℚ) : ℤ :=
  let f := ⌊q⌋
  let r := q - f
  if r < 1 / 2 then f
  else if 1 / 2 < r then f + 1
  else if f % 2 = 0 then f else f + 1

/-- Python `round(x, 2)` over exact rationals: round half to even at two
decimal places. -/
def round2 (q : ℚ) : ℚ :=
  (roundHalfEven (q * 100) : ℚ) / 100

/-- A price field as received from the storefront API, classified by how
Python sees it in `update_shopify_price`:
* `absent`: `None` or the empty string (falsy, so the guard at line 204 skips);
* `blank`: non-empty but whitespace-only (`.strip()` is falsy);
* `malformed`: non-blank text on which `float(...)` raises;
* `value q`: text that `float(...)` converts to the rational `q`. -/
inductive PriceText where
  | absent
  | blank
  | malformed
  | value (q : ℚ)
  deriving DecidableEq

/-- Result of Python `float(...)` on a price field: `none` when the
conversion raises. -/
def parseDecimal : PriceText → Option ℚ
  | .value q => some q
  | _ => none

/-- Discount guard of `update_shopify_price` (source lines 200–216): the
outer condition `compare_at_price and compare_at_price.strip()` rules out
`absent`/`blank`; inside the `try`, a failing `float` on either the
compare-at price or the current price is caught and treated as "no
discount"; otherwise there is a discount iff compare-at > current. -/
def has_discount (current_shopify_price compare_at_price : PriceText) : Bool :=
  match compare_at_price with
  | .value compare_price_float =>
    match parseDecimal current_shopify_price with
    | some current_price_float => decide (compare_price_float > current_price_float)
    | none => false
  | _ => false

/-- Target price computation of `update_shopify_price` (source lines
218–222): POS price + 15 %, rounded to 2 decimals, then rounded up to the
nearest 5 or 10 pounds. -/
def computeTargetPrice (pos_price : ℚ) : ℤ :=
  round_to_5_or_10 (round2 (pos_price * 1.15))

/-- Outcome of the price target calculation (source lines 218–235),
one constructor per distinct exit path of the code. -/
inductive PriceOutcome where
  | parseError
  | skippedAtTarget
  | updated (newPrice : ℤ)
  deriving DecidableEq

/-- Price target calculator portion of `update_shopify_price` (source
lines 218–235): compute the target, then parse the current price (a
failure is reported, line 228), then skip when the current price is within
the 0.01 tolerance of the target or above it, else update to the target. -/
def computeTarget (pos_price : ℚ) (current_shopify_price : PriceText) : PriceOutcome :=
  let target_price := computeTargetPrice pos_price
  match parseDecimal current_shopify_price with
  | none => .parseError
  | some current_price_float =>
    if |current_price_float - (target_price : ℚ)| ≤ 0.01 ∨ current_price_float > (target_price : ℚ)
    then .skippedAtTarget
    else .updated target_price

/-- Outcome of one full price-sync attempt, one constructor per distinct
exit path of `update_shopify_price` (lines 192–260); `updateAttempted`
records whether the PUT request succeeded. -/
inductive PriceSyncResult where
  | skippedDiscount
  | parseError
  | skippedAtTarget
  | updateAttempted (newPrice : ℤ) (ok : Bool)
  deriving DecidableEq

/-- `update_shopify_price` (source lines 192–260): discount guard first,
then the price target calculator; an `updated` outcome performs the PUT,
whose transport result is the parameter `putOk`. -/
def update_shopify_price (pos_price : ℚ) (current_shopify_price compare_at_price : PriceText)
    (putOk : Bool) : PriceSyncResult :=
  if has_discount current_shopify_price compare_at_price then .skippedDiscount
  else
    match computeTarget pos_price current_shopify_price with
    | .parseError => .parseError
    | .skippedAtTarget => .skippedAtTarget
    | .updated n => .updateAttempted n putOk

/-- One record of the bulk POS response, classified by what
`get_all_pos_inventory` (source lines 90–128) observes:
* `truthy`: Python truthiness of the record (`if item`);
* `id`: `some s` when the `"ID"` key is present, with `s = str(item["ID"])`
  (never fails);
* `qua` / `price`: `some r` when the key is present, where `r` is the
  result of `float(...)` on its value (`none` inside means the conversion
  raised). -/
structure PosItem where
  truthy : Bool
  id : Option String
  qua : Option (Option ℚ)
  price : Option (Option ℚ)
  deriving DecidableEq

/-- One value of the POS inventory map (source lines 111–114). -/
structure PosEntry where
  quantity : ℤ
  price : ℚ
  deriving DecidableEq

/-- The POS inventory dictionary.  A later insertion for the same key is
prepended, so `List.lookup` (first match) realises the dictionary's
last-write-wins lookup semantics. -/
abbrev PosMap := List (String × PosEntry)

/-- One iteration of the loop at source lines 104–118: records passing the
presence check for `"ID"`, `"Qua"`, `"Price"` are converted and stored
under the raw `str(item["ID"])` key; records failing the check are
skipped; a failing `float` conversion raises out of the loop (`none`). -/
def processPosItem (m : PosMap) (item : PosItem) : Option PosMap :=
  match item.truthy, item.id, item.qua, item.price with
  | true, some sku, some quaV, some priceV =>
    match quaV with
    | none => none
    | some q =>
      match priceV with
      | none => none
      | some p => some ((sku, ⟨pyInt q, p⟩) :: m)
  | _, _, _, _ => some m

/-- The loop of `get_all_pos_inventory` over the parsed bulk response; an
exception from any iteration aborts the whole build (propagating to the
`except` clause at line 126, which returns `None`). -/
def buildPosMap : PosMap → List PosItem → Option PosMap
  | m, [] => some m
  | m, item :: rest =>
    match processPosItem m item with
    | none => none
    | some m' => buildPosMap m' rest

/-- `get_all_pos_inventory` (source lines 90–128): `none` input models a
transport error or an unparseable top-level response (both return `None`);
otherwise the loop runs over the parsed record list. -/
def get_all_pos_inventory (resp : Option (List PosItem)) : Option PosMap :=
  match resp with
  | none => none
  | some pos_data => buildPosMap [] pos_data

/-- A JSON value, used to model the body of the GraphQL stock-mutation
response handled by `update_shopify_stock`. -/
inductive JsonV where
  | null
  | bool (b : Bool)
  | num (q : ℚ)
  | str (s : String)
  | arr (elems : List JsonV)
  | obj (fields : List (String × JsonV))

/-- Python truthiness of a JSON value. -/
def pyTruthy : JsonV → Bool
  | .null => false
  | .bool b => b
  | .num q => decide (q ≠ 0)
  | .str s => decide (s ≠ "")
  | .arr l => !l.isEmpty
  | .obj l => !l.isEmpty

/-- Python `v.get(k, default)`: returns the default only when the key is
missing from a dict; on a non-dict value it raises `AttributeError`. -/
def pyGet (v : JsonV) (k : String) (default : JsonV) : Except Unit JsonV :=
  match v with
  | .obj fields =>
    match fields.lookup k with
    | some x => .ok x
    | none => .ok default
  | _ => .error ()

/-- Python `v[0]`: first element of a list (or first character of a
string); raises `TypeError`/`KeyError` on other values. -/
def pyIndex0 : JsonV → Except Unit JsonV
  | .arr (x :: _) => .ok x
  | .str s =>
    match s.data with
    | c :: _ => .ok (.str ⟨[c]⟩)
    | [] => .error ()
  | _ => .error ()

/-- Python `v[k]` for a string key `k`: dict lookup raising `KeyError`
when missing; raises `TypeError` on non-dict values. -/
def pySubscript (v : JsonV) (k : String) : Except Unit JsonV :=
  match v with
  | .obj fields =>
    match fields.lookup k with
    | some x => .ok x
    | none => .error ()
  | _ => .error ()

/-- A remote HTTP interaction as seen by the calling code:
`transportError` covers every `requests.exceptions.RequestException`
(connection failure, error status via `raise_for_status`, and an
undecodable JSON body); `ok body` is a successful response whose body
decoded to `body`. -/
inductive HttpResp where
  | transportError
  | ok (body : JsonV)

/-- `update_shopify_stock` (source lines 131–189): a transport-level
failure is caught and returns `False`; otherwise the code reads
`response_data.get("data", {}).get("inventorySetOnHandQuantities",
{}).get("userErrors", [])`, returns `False` (after reading
`user_errors[0]["message"]`) when `userErrors` is truthy and `True`
otherwise.  Only `RequestException` is caught, so any other exception in
the body handling escapes (`.error ()`).  The `quantity` parameter is only
placed into the request payload. -/
def update_shopify_stock (quantity : ℤ) (resp : HttpResp) : Except Unit Bool :=
  match resp with
  | .transportError => .ok false
  | .ok body => do
    let dataV ← pyGet body "data" (.obj [])
    let invV ← pyGet dataV "inventorySetOnHandQuantities" (.obj [])
    let user_errors ← pyGet invV "userErrors" (.arr [])
    if pyTruthy user_errors then do
      let first ← pyIndex0 user_errors
      let _message ← pySubscript first "message"
      pure false
    else
      pure true

/-- One storefront variant as collected by `get_shopify_skus` and consumed
by the loop of `main` (source lines 283–304). -/
structure ShopItem where
  sku : Option String
  inventory_item_id : ℤ
  variant_id : ℤ
  current_price : PriceText
  compare_at_price : PriceText
  deriving DecidableEq

/-- The remote responses one item's two sync calls will receive:
`stockResp` for the GraphQL stock mutation, `pricePutOk` for the price
PUT (attempted only on an `updated` outcome). -/
structure ItemEnv where
  stockResp : HttpResp
  pricePutOk : Bool

/-- Per-item outcome of one pass of the driver loop. -/
inductive ItemResult where
  | unmatched
  | matched (stockQty : ℤ) (stockOk : Bool) (priceRes : PriceSyncResult)
  deriving DecidableEq

/-- One iteration of the loop in `main` (source lines 283–304): sanitize
the storefront SKU, look it up in the POS map; on a match, attempt the
stock sync with the authoritative quantity (its boolean result only gates
a log line) and then the price sync.  An exception escaping
`update_shopify_stock` propagates (`.error`). -/
def reconcileItem (m : PosMap) (env : ItemEnv) (item : ShopItem) : Except Unit ItemResult :=
  match List.lookup (sanitize_sku item.sku) m with
  | none => .ok .unmatched
  | some pos_data => do
    let stockOk ← update_shopify_stock pos_data.quantity env.stockResp
    pure (.matched pos_data.quantity stockOk
      (update_shopify_price pos_data.price item.current_price item.compare_at_price
        env.pricePutOk))

/-- The driver loop of `main` over all storefront items, each paired with
the remote responses its calls will receive; an uncaught exception aborts
the remaining items. -/
def main_loop (m : PosMap) : List (ShopItem × ItemEnv) → Except Unit (List ItemResult)
  | [] => .ok []
  | (item, env) :: rest => do
    let r ← reconcileItem m env item
    let rs ← main_loop m rest
    pure (r :: rs)

/-- Result of one run of `main` after the configuration check. -/
inductive RunResult where
  | abortedShopify
  | abortedPos
  | crashed
  | finished (results : List ItemResult)

/-- `main` (source lines 264–304) after the environment-variable check:
`if not shopify_skus` aborts on a failed fetch (`none`) or an empty list;
then `if not pos_inventory` aborts on a failed POS snapshot (`none`) or an
empty map; otherwise the driver loop runs. -/
def main_run (shopify_skus : Option (List (ShopItem × ItemEnv)))
    (pos_inventory : Option PosMap) : RunResult :=
  match shopify_skus with
  | none => .abortedShopify
  | some skus =>
    if skus.isEmpty then .abortedShopify
    else
      match pos_inventory with
      | none => .abortedPos
      | some m =>
        if m.isEmpty then .abortedPos
        else
          match main_loop m skus with
          | .error _ => .crashed
          | .ok rs => .finished rs

/-! ### Helper lemmas -/

/-- `int(...)` agrees with the floor on non-negative arguments. -/
theorem pyInt_eq_floor {q : ℚ} (hq : 0 ≤ q) : pyInt q = ⌊q⌋ := by
  simp [pyInt, hq]

/-- `int(...)` is the identity on integers. -/
theorem pyInt_intCast (P : ℤ) : pyInt (P : ℚ) = P := by
  unfold pyInt
  split
  · exact Int.floor_intCast P
  · rw [show (-(P : ℚ)) = ((-P : ℤ) : ℚ) by push_cast ; ring, Int.floor_intCast]
    ring

/-- Branch form of `round_to_5_or_10` in terms of the truncated price. -/
theorem round_to_5_or_10_eq (q : ℚ) :
    round_to_5_or_10 q =
      if pyInt q % 10 = 0 ∨ pyInt q % 10 = 5 then pyInt q
      else if pyInt q % 10 < 5 then pyInt q - pyInt q % 10 + 5
      else pyInt q - pyInt q % 10 + 10 := rfl

/-- C9: for every price P ≥ 0, `round_to_5_or_10` truncates P to whole
currency units (the floor, since P ≥ 0) and returns the truncation
unchanged when its last digit is 0 or 5; otherwise, when the value mod 10
is below 5 it rounds up to the nearest multiple of 5 (which then ends in
5), and otherwise up to the nearest multiple of 10; for all integers P the
result is a multiple of 5 and at least the truncation, and the function is
total (it is a Lean function). -/
theorem round_to_5_or_10_spec (q : ℚ) (hq : 0 ≤ q) (P : ℤ) :
    pyInt q = ⌊q⌋ ∧
    (⌊q⌋ % 10 = 0 ∨ ⌊q⌋ % 10 = 5 → round_to_5_or_10 q = ⌊q⌋) ∧
    (⌊q⌋ % 10 ≠ 0 → ⌊q⌋ % 10 ≠ 5 → ⌊q⌋ % 10 < 5 →
      round_to_5_or_10 q = 5 * ((⌊q⌋ + 4) / 5) ∧ round_to_5_or_10 q % 10 = 5) ∧
    (5 < ⌊q⌋ % 10 → round_to_5_or_10 q = 10 * ((⌊q⌋ + 9) / 10)) ∧
    round_to_5_or_10 (P : ℚ) % 5 = 0 ∧
    pyInt (P : ℚ) ≤ round_to_5_or_10 (P : ℚ) := by
  have hpy : pyInt q = ⌊q⌋ := pyInt_eq_floor hq
  have hr := round_to_5_or_10_eq q
  rw [hpy] at hr
  have hrP := round_to_5_or_10_eq (P : ℚ)
  rw [pyInt_intCast] at hrP
  refine ⟨hpy, ?_, ?_, ?_, ?_, ?_⟩
  · intro h
    rw [hr, if_pos h]
  · intro h0 h5 hlt
    rw [hr, if_neg (by tauto), if_pos hlt]
    omega
  · intro h
    rw [hr, if_neg (by omega), if_neg (by omega)]
    omega
  · rw [hrP]
    split
    · omega
    · split <;> omega
  · rw [hrP, pyInt_intCast]
    split
    · omega
    · split <;> omega

/-- Witness for `round_to_5_or_10_spec` at q = 101.4 and P = -3:
101.4 truncates to 101, whose last digit 1 is below 5, so the result is
the next multiple of 5, namely 105. -/
theorem round_to_5_or_10_spec_w :
    round_to_5_or_10 (101.4 : ℚ) = 5 * ((⌊(101.4 : ℚ)⌋ + 4) / 5) ∧
    round_to_5_or_10 (101.4 : ℚ) % 10 = 5 :=
  (round_to_5_or_10_spec 101.4 (by norm_num) (-3)).2.2.1
    (by norm_num) (by norm_num) (by norm_num)

/-- C2: for every base price and every current price that parses, the
price target calculator computes the target as `round_to_5_or_10` of
(base × 1.15 rounded to 2 decimal places); it skips exactly when the
current price is within the 0.01 tolerance of the target or above it, and
updates to the target otherwise; consequently an update always strictly
raises the price (it is never lowered). -/
theorem price_target_calculator_spec (base cur : ℚ) :
    (computeTarget base (.value cur) = .skippedAtTarget ↔
      |cur - (computeTargetPrice base : ℚ)| ≤ 0.01 ∨ cur > (computeTargetPrice base : ℚ)) ∧
    (computeTarget base (.value cur) = .updated (computeTargetPrice base) ↔
      ¬(|cur - (computeTargetPrice base : ℚ)| ≤ 0.01 ∨ cur > (computeTargetPrice base : ℚ))) ∧
    (∀ n : ℤ, computeTarget base (.value cur) = .updated n → cur < (n : ℚ)) := by
  have h : computeTarget base (.value cur) =
      if |cur - (computeTargetPrice base : ℚ)| ≤ 0.01 ∨ cur > (computeTargetPrice base : ℚ)
      then .skippedAtTarget else .updated (computeTargetPrice base) := rfl
  by_cases hc : |cur - (computeTargetPrice base : ℚ)| ≤ 0.01 ∨ cur > (computeTargetPrice base : ℚ)
  · rw [h, if_pos hc]
    refine ⟨by simp [hc], by simp [hc], ?_⟩
    intro n hn
    simp at hn
  · rw [h, if_neg hc]
    refine ⟨by simp [hc], by simp [hc], ?_⟩
    intro n hn
    have hn' : computeTargetPrice base = n := by
      simpa using hn
    rcases not_or.mp hc with ⟨h2, h1⟩
    have h1' : cur ≤ (computeTargetPrice base : ℚ) := not_lt.mp h1
    have h2' : (0.01 : ℚ) < |cur - (computeTargetPrice base : ℚ)| := not_le.mp h2
    rw [abs_of_nonpos (by linarith)] at h2'
    rw [← hn']
    linarith

/-- Witness for `price_target_calculator_spec` at base 100 and current
price 50: the target is 115 and the update strictly raises the price. -/
theorem price_target_calculator_spec_w : (50 : ℚ) < ((115 : ℤ) : ℚ) :=
  (price_target_calculator_spec 100 50).2.2 115
    (by norm_num [computeTarget, computeTargetPrice, round2, roundHalfEven,
      round_to_5_or_10, pyInt, parseDecimal])

/-- C4: idempotence of the price calculation — whenever the calculator
returns an update to `n` for some starting price, re-running it against
the same base price with current price `n` skips (the new price is exactly
the target, within tolerance). -/
theorem price_calculation_idempotent (base X : ℚ) (n : ℤ)
    (h : computeTarget base (.value X) = .updated n) :
    computeTarget base (.value (n : ℚ)) = .skippedAtTarget := by
  have h' : computeTarget base (.value X) =
      if |X - (computeTargetPrice base : ℚ)| ≤ 0.01 ∨ X > (computeTargetPrice base : ℚ)
      then .skippedAtTarget else .updated (computeTargetPrice base) := rfl
  rw [h'] at h
  have hn : n = computeTargetPrice base := by
    by_cases hc : |X - (computeTargetPrice base : ℚ)| ≤ 0.01 ∨ X > (computeTargetPrice base : ℚ)
    · rw [if_pos hc] at h
      simp at h
    · rw [if_neg hc] at h
      injection h with h1
      exact h1.symm
  have hgoal : computeTarget base (.value (n : ℚ)) =
      if |(n : ℚ) - (computeTargetPrice base : ℚ)| ≤ 0.01 ∨
        (n : ℚ) > (computeTargetPrice base : ℚ)
      then .skippedAtTarget else .updated (computeTargetPrice base) := rfl
  rw [hgoal, if_pos]
  left
  rw [hn, sub_self, abs_zero]
  norm_num

/-- Witness for `price_calculation_idempotent`: base 100, starting price
50 updates to 115, and a second run at current price 115 skips. -/
theorem price_calculation_idempotent_w :
    computeTarget 100 (.value ((115 : ℤ) : ℚ)) = .skippedAtTarget :=
  price_calculation_idempotent 100 50 115
    (by norm_num [computeTarget, computeTargetPrice, round2, roundHalfEven,
      round_to_5_or_10, pyInt, parseDecimal])

/-- C3 counterexample: with current price −10 and reference (compare-at)
price text "-5", the reference price parses to −5, which is not a
positive decimal, yet the discount guard returns true — refuting
"returns false when referencePrice is ... not parseable as a positive
decimal". -/
theorem discount_guard_positive_cex :
    has_discount (PriceText.value (-10)) (PriceText.value (-5)) = true ∧
    ¬(0 < (-5 : ℚ)) := by
  constructor
  · norm_num [has_discount, parseDecimal]
  · norm_num

/-- C3 (amended): the discount guard returns true iff the reference price
is present and parses to a decimal (positivity is not checked) strictly
greater than the parsed current price; it returns false when the
reference price is absent, blank or unparseable, or when the current
price is unparseable (malformed input never raises — the guard is a total
function); whenever it returns true, the price sync exits with
`skippedDiscount`, so the price target calculator is not run. -/
theorem discount_guard_spec (current compare : PriceText) :
    (has_discount current compare = true ↔
      ∃ cq cur, compare = PriceText.value cq ∧ parseDecimal current = some cur ∧ cur < cq) ∧
    (has_discount current compare = true →
      ∀ base putOk, update_shopify_price base current compare putOk = .skippedDiscount) := by
  constructor
  · cases compare with
    | value cq =>
      cases hc : parseDecimal current with
      | none => simp [has_discount, hc]
      | some cur => simp [has_discount, hc]
    | absent => simp [has_discount]
    | blank => simp [has_discount]
    | malformed => simp [has_discount]
  · intro h base putOk
    simp [update_shopify_price, h]

/-- Witness for `discount_guard_spec` at the spec scenario: current price
90, reference price 120 → discounted, price sync reports the discount
skip. -/
theorem discount_guard_spec_w :
    update_shopify_price 100 (.value 90) (.value 120) true = .skippedDiscount :=
  (discount_guard_spec (.value 90) (.value 120)).2
    (by norm_num [has_discount, parseDecimal]) 100 true

/-- The discount guard never reports a discount when the current price
does not parse. -/
theorem has_discount_of_unparseable {current : PriceText}
    (h : parseDecimal current = none) (compare : PriceText) :
    has_discount current compare = false := by
  cases compare <;> simp [has_discount, h]

/-- C8: for every item whose current storefront price does not parse as a
decimal, the price sync exits through the dedicated parse-failure path —
an outcome distinct from both skip outcomes, not conflated with the
at-target skip and not silently dropped. -/
theorem parse_failure_distinct_outcome (base : ℚ) (current compare : PriceText)
    (putOk : Bool) (h : parseDecimal current = none) :
    update_shopify_price base current compare putOk = .parseError ∧
    PriceSyncResult.parseError ≠ PriceSyncResult.skippedAtTarget ∧
    PriceSyncResult.parseError ≠ PriceSyncResult.skippedDiscount := by
  refine ⟨?_, by simp, by simp⟩
  rw [update_shopify_price, has_discount_of_unparseable h]
  simp [computeTarget, h]

/-- Witness for `parse_failure_distinct_outcome` at base price 100,
malformed current price text and no compare-at price. -/
theorem parse_failure_distinct_outcome_w :
    update_shopify_price 100 .malformed .absent true = .parseError ∧
    PriceSyncResult.parseError ≠ PriceSyncResult.skippedAtTarget ∧
    PriceSyncResult.parseError ≠ PriceSyncResult.skippedDiscount :=
  parse_failure_distinct_outcome 100 .malformed .absent true rfl

/-- A string fixed by the normalizer: sanitizing a string of printable
characters returns it unchanged. -/
theorem sanitize_of_printable {k : String} (hp : ∀ c ∈ k.data, pyIsPrintable c = true) :
    sanitize_sku (some k) = k := by
  show (⟨k.data.filter pyIsPrintable⟩ : String) = k
  rw [List.filter_eq_self.mpr hp]

/-- A key that occurs in the POS map is found by dictionary lookup. -/
theorem lookup_isSome_of_mem {k : String} {e : PosEntry} {m : PosMap}
    (h : (k, e) ∈ m) : (List.lookup k m).isSome = true := by
  induction m with
  | nil => simp at h
  | cons p rest ih =>
    obtain ⟨k', e'⟩ := p
    rcases List.mem_cons.mp h with heq | hmem
    · cases heq
      simp [List.lookup]
    · by_cases hk : k == k'
      · simp [List.lookup, hk]
      · simp [List.lookup, hk]
        exact ⟨e, hmem⟩

/-- One loop iteration either keeps the map or prepends an entry keyed by
the record's raw identifier. -/
theorem processPosItem_eq {m : PosMap} {item : PosItem} {m' : PosMap}
    (h : processPosItem m item = some m') :
    m' = m ∨ ∃ sku q p, item.id = some sku ∧
      m' = (sku, ⟨pyInt q, p⟩) :: m := by
  obtain ⟨t, i, qv, pv⟩ := item
  cases t <;> cases i <;> rcases qv with _ | (_ | q) <;> rcases pv with _ | (_ | p) <;>
    simp_all [processPosItem]
  exact Or.inr ⟨q, p, h.symm⟩

/-- Every key of the built POS map is the raw identifier of some input
record. -/
theorem buildPosMap_keys (data : List PosItem) : ∀ (m₀ m : PosMap),
    buildPosMap m₀ data = some m → ∀ k e, (k, e) ∈ m →
      (k, e) ∈ m₀ ∨ ∃ item ∈ data, item.id = some k := by
  induction data with
  | nil =>
    intro m₀ m h k e hk
    simp only [buildPosMap, Option.some.injEq] at h
    subst h
    exact Or.inl hk
  | cons item rest ih =>
    intro m₀ m h k e hk
    simp only [buildPosMap] at h
    cases hpi : processPosItem m₀ item with
    | none => rw [hpi] at h; cases h
    | some m₁ =>
      rw [hpi] at h
      rcases ih m₁ m h k e hk with h₁ | ⟨it, hit, hid⟩
      · rcases processPosItem_eq hpi with rfl | ⟨sku, q, p, hid, rfl⟩
        · exact Or.inl h₁
        · rcases List.mem_cons.mp h₁ with heq | hmem
          · cases heq
            exact Or.inr ⟨item, List.mem_cons_self .., hid⟩
          · exact Or.inl hmem
      · exact Or.inr ⟨it, List.mem_cons_of_mem _ hit, hid⟩

/-- A SKU containing a non-printable character (U+0001). -/
def ctrlSku : String := ⟨['A', Char.ofNat 1]⟩

/-- C1 counterexample: a POS record whose identifier contains a
non-printable character is stored under the raw identifier, not under its
normalized form — the stored key differs from `sanitize_sku` of the raw
identifier, and a storefront item with the very same raw SKU (whose
normalized form therefore equals the normalized form of the authoritative
identifier) fails to find a match in the driver. -/
theorem join_normalization_cex :
    get_all_pos_inventory (some [⟨true, some ctrlSku, some (some 3), some (some 10)⟩]) =
      some [(ctrlSku, ⟨3, 10⟩)] ∧
    sanitize_sku (some ctrlSku) = "A" ∧
    sanitize_sku (some ctrlSku) ≠ ctrlSku ∧
    List.lookup (sanitize_sku (some ctrlSku))
      [(ctrlSku, ({ quantity := 3, price := 10 } : PosEntry))] = none ∧
    reconcileItem [(ctrlSku, ⟨3, 10⟩)] ⟨HttpResp.transportError, true⟩
      ⟨some ctrlSku, 1, 1, .value 100, .absent⟩ = .ok .unmatched := by
  refine ⟨?_, by decide, by decide, by decide, ?_⟩
  · norm_num [get_all_pos_inventory, buildPosMap, processPosItem, pyInt, ctrlSku]
  · rfl

/-- C1 (amended): normalization is applied only on the storefront side of
the join — every record accepted into the POS map is stored under its raw
identifier string, and a storefront SKU is looked up by its normalized
form; consequently, whenever an accepted authoritative identifier
consists only of printable characters (so normalization fixes it), every
storefront SKU whose normalized form equals that identifier's normalized
form finds the match. -/
theorem join_normalization_amended (data : List PosItem) (m : PosMap)
    (hm : get_all_pos_inventory (some data) = some m)
    (k : String) (e : PosEntry) (hk : (k, e) ∈ m)
    (hp : ∀ c ∈ k.data, pyIsPrintable c = true)
    (s : Option String) (hs : sanitize_sku s = sanitize_sku (some k)) :
    (∃ item ∈ data, item.id = some k) ∧
    (List.lookup (sanitize_sku s) m).isSome = true := by
  have hbuild : buildPosMap [] data = some m := hm
  constructor
  · rcases buildPosMap_keys data [] m hbuild k e hk with h | h
    · simp at h
    · exact h
  · rw [hs, sanitize_of_printable hp]
    exact lookup_isSome_of_mem hk

/-- Witness for `join_normalization_amended` on a one-record snapshot with
the printable identifier "A". -/
theorem join_normalization_amended_w :
    (∃ item ∈ [(⟨true, some "A", some (some 3), some (some 10)⟩ : PosItem)],
      item.id = some "A") ∧
    (List.lookup (sanitize_sku (some "A"))
      [("A", (⟨3, 10⟩ : PosEntry))]).isSome = true :=
  join_normalization_amended
    [⟨true, some "A", some (some 3), some (some 10)⟩]
    [("A", ⟨3, 10⟩)]
    (by norm_num [get_all_pos_inventory, buildPosMap, processPosItem, pyInt])
    "A" ⟨3, 10⟩ (by simp) (by decide) (some "A") rfl

/-- C5: for every storefront item whose normalized SKU is found in the
POS map, and whatever the stock call's remote interaction returns
(success or failure), the driver attempts the stock sync with the
authoritative quantity — independent of the item's price fields — and then
attempts the price sync, whose outcome is a function of the price data
only, independent of the stock result. -/
theorem stock_and_price_sync_independent (m : PosMap) (env : ItemEnv) (item : ShopItem)
    (e : PosEntry) (b : Bool)
    (hfound : List.lookup (sanitize_sku item.sku) m = some e)
    (hstock : update_shopify_stock e.quantity env.stockResp = .ok b) :
    reconcileItem m env item =
      .ok (.matched e.quantity b
        (update_shopify_price e.price item.current_price item.compare_at_price
          env.pricePutOk)) := by
  rw [reconcileItem, hfound]
  simp [hstock, Except.bind]

/-- Witness for `stock_and_price_sync_independent`: a matched item whose
stock call fails at transport level still has its price sync attempted. -/
theorem stock_and_price_sync_independent_w :
    reconcileItem [("A", ⟨5, 100⟩)] ⟨HttpResp.transportError, true⟩
      ⟨some "A", 1, 2, .value 100, .absent⟩ =
      .ok (.matched 5 false
        (update_shopify_price 100 (.value 100) .absent true)) :=
  stock_and_price_sync_independent [("A", ⟨5, 100⟩)] ⟨HttpResp.transportError, true⟩
    ⟨some "A", 1, 2, .value 100, .absent⟩ ⟨5, 100⟩ false rfl rfl

/-- C6 (code bug): a record that has all three required fields but whose
"Qua" value fails numeric conversion raises inside the loop and the
catch-all handler fails the WHOLE snapshot — the well-formed record "B"
in the same response is lost, contradicting the function's own docstring
("safely skipping any malformed items").  By contrast, a record merely
missing a field is skipped correctly and "B" is kept. -/
theorem pos_builder_malformed_record_aborts :
    get_all_pos_inventory (some [⟨true, some "A", some none, some (some 10)⟩,
      ⟨true, some "B", some (some 2), some (some 5)⟩]) = none ∧
    get_all_pos_inventory (some [⟨true, none, some (some 2), some (some 5)⟩,
      ⟨true, some "B", some (some 2), some (some 5)⟩]) = some [("B", ⟨2, 5⟩)] := by
  constructor
  · rfl
  · norm_num [get_all_pos_inventory, buildPosMap, processPosItem, pyInt]

/-- C7 (code bug): a stock-mutation response of HTTP 200 with body
`{"data": null}` makes `update_shopify_stock` raise (only transport
errors are caught, and `.get` on `None` raises `AttributeError`), and the
exception crosses the driver loop, aborting the processing of all
subsequent items; with non-raising responses the loop processes every
item. -/
theorem stock_sync_uncaught_exception :
    update_shopify_stock 3 (HttpResp.ok (JsonV.obj [("data", JsonV.null)])) = .error () ∧
    main_loop [("A", ⟨3, 100⟩)]
      [(⟨some "A", 1, 1, .value 100, .absent⟩,
        ⟨HttpResp.ok (JsonV.obj [("data", JsonV.null)]), true⟩),
       (⟨some "A", 2, 2, .value 100, .absent⟩, ⟨HttpResp.transportError, true⟩)] =
      .error () ∧
    main_loop [("A", ⟨3, 100⟩)]
      [(⟨some "A", 1, 1, .value 100, .absent⟩, ⟨HttpResp.transportError, true⟩),
       (⟨some "A", 2, 2, .value 100, .absent⟩, ⟨HttpResp.transportError, true⟩)] =
      .ok [.matched 3 false (.updateAttempted 115 true),
           .matched 3 false (.updateAttempted 115 true)] := by
  refine ⟨rfl, rfl, ?_⟩
  have hprice : update_shopify_price 100 (.value 100) .absent true =
      .updateAttempted 115 true := by
    norm_num [update_shopify_price, has_discount, parseDecimal, computeTarget,
      computeTargetPrice, round2, roundHalfEven, round_to_5_or_10, pyInt]
  rw [← hprice]
  rfl

/-- C10: a storefront snapshot that builds successfully but is empty
aborts the run exactly like a failed fetch (same result, and the POS
snapshot argument is never examined — the result is the same whatever it
would have been); likewise a successfully built but empty POS map aborts
exactly like a failed POS fetch, before any reconciliation. -/
theorem empty_snapshot_aborts_run (pos posB : Option PosMap)
    (items : List (ShopItem × ItemEnv)) (h : items ≠ []) :
    main_run (some []) pos = RunResult.abortedShopify ∧
    main_run (some []) pos = main_run none posB ∧
    main_run (some items) (some []) = RunResult.abortedPos ∧
    main_run (some items) (some []) = main_run (some items) none := by
  have hne : items.isEmpty = false := by
    cases items with
    | nil => cases h rfl
    | cons a l => rfl
  refine ⟨rfl, rfl, ?_, ?_⟩
  · simp [main_run, hne]
  · simp [main_run, hne]

/-- Witness for `empty_snapshot_aborts_run` on a one-item storefront
snapshot. -/
theorem empty_snapshot_aborts_run_w :
    main_run (some []) (some [("A", (⟨3, 100⟩ : PosEntry))]) = RunResult.abortedShopify ∧
    main_run (some []) (some [("A", (⟨3, 100⟩ : PosEntry))]) = main_run none (some []) ∧
    main_run (some [(⟨some "A", 1, 1, .value 100, .absent⟩, ⟨HttpResp.transportError, true⟩)])
      (some []) = RunResult.abortedPos ∧
    main_run (some [(⟨some "A", 1, 1, .value 100, .absent⟩, ⟨HttpResp.transportError, true⟩)])
      (some []) =
      main_run (some [(⟨some "A", 1, 1, .value 100, .absent⟩, ⟨HttpResp.transportError, true⟩)])
        none :=
  empty_snapshot_aborts_run (some [("A", ⟨3, 100⟩)]) (some [])
    [(⟨some "A", 1, 1, .value 100, .absent⟩, ⟨HttpResp.transportError, true⟩)] (by simp)
